import Mathlib

/-!
# Verification of the metrics-sdks payload-construction core

Shallow embedding of the Node `construct-payload.ts` module (and, where the
deciding code is not part of the provided sources, definitions modelled from
the specification, marked as such).  JavaScript `Date` values are embedded as
epoch milliseconds (`Nat`); optional JS values (`undefined`) as `Option`;
JS string truthiness (`s || t`, `s ? a : b`) as explicit emptiness tests.
-/

namespace Metrics

/-- A single `{name, value}` pair, the normalized form of a header or query
parameter. -/
structure Pair where
  name : String
  value : String
deriving DecidableEq, Repr

/-- One decomposed body field (`postData.params` element).  File parts carry
`fileName` and `contentType`; scalar fields leave them absent. -/
structure Param where
  name : String
  value : String
  fileName : Option String := none
  contentType : Option String := none
deriving DecidableEq, Repr

/-- A HAR `postData`/`content` body record: either text form or params form
(exactly one of the two, by construction of the inductive). -/
inductive BodyRecord where
  | textForm (mimeType : String) (text : String)
  | paramsForm (mimeType : String) (params : List Param)
deriving DecidableEq, Repr

/-- The options bag accepted by the middleware (`LogOptions` interface in
`construct-payload.ts`): deny/allow lists with their deprecated aliases, the
development flag and the fire-and-forget flag.  Every field is optional in
TypeScript, hence `Option`. -/
structure LogOptions where
  denylist : Option (List String) := none
  blacklist : Option (List String) := none
  allowlist : Option (List String) := none
  whitelist : Option (List String) := none
  development : Option Bool := none
  fireAndForget : Option Bool := none
deriving DecidableEq, Repr

/-- The per-request data handed to `constructPayload` (`PayloadData`
interface).  `startedDateTime` and `responseEndDateTime` are JS `Date`
objects, embedded as their `getTime()` epoch-millisecond values.
`requestBody` (object-or-string in TS) is embedded as its textual form. -/
structure PayloadData where
  apiKey : String
  label : Option String := none
  email : Option String := none
  startedDateTime : Nat
  responseEndDateTime : Nat
  logId : Option String := none
  routePath : Option String := none
  requestBody : Option String := none
  responseBody : Option String := none
deriving DecidableEq, Repr

/-- The slice of Node's `http.IncomingMessage` that the pipeline reads:
method, `req.url` (path + query), HTTP version, the parsed headers (with
`req.headers.host` singled out, as the code reads it), the socket's TLS flag
(`(req.socket as TLSSocket).encrypted`) and `req.socket.remoteAddress`. -/
structure IncomingMessage where
  method : String
  url : String
  httpVersion : String
  host : String
  headers : List Pair
  contentType : Option String := none
  query : List Pair := []
  encrypted : Bool := false
  remoteAddress : Option String := none
deriving DecidableEq, Repr

/-- The slice of Node's `http.ServerResponse` that the pipeline reads. -/
structure ServerResponse where
  statusCode : Nat
  statusMessage : String
  headers : List Pair
  contentType : Option String := none
deriving DecidableEq, Repr

/-- Ambient platform facilities used by `constructPayload` that are not
repository code: the randomness consumed by the `uuid` package's `v4`
generator (one hex digit per entry), the success predicate of the host's
`JSON.parse`, and the process-wide identity strings (`os.arch()`,
`os.platform()`, `os.release()`, `process.versions.node`, the package
version). -/
structure Platform where
  uuidBytes : List (Fin 16)
  jsonValid : String → Bool
  arch : String
  osPlatform : String
  osRelease : String
  nodeVersion : String
  pkgVersion : String

/-- `group` object of the outgoing payload. -/
structure Group where
  id : String
  label : Option String
  email : Option String
deriving DecidableEq, Repr

/-- `creator` metadata of the HAR log. -/
structure Creator where
  name : String
  version : String
  comment : String
deriving DecidableEq, Repr

/-- `timings` object of a HAR entry. -/
structure Timings where
  wait : Int
  receive : Int
deriving DecidableEq, Repr

/-- Serialized request record (HAR `request` object), produced by
`processRequest`. -/
structure RequestRecord where
  method : String
  url : String
  httpVersion : String
  headers : List Pair
  queryString : List Pair
  postData : Option BodyRecord
deriving DecidableEq, Repr

/-- Serialized response record (HAR `response` object plus redundant `size`
and mime type), produced by `processResponse`. -/
structure ResponseRecord where
  status : Nat
  statusText : String
  headers : List Pair
  content : Option BodyRecord
  size : Nat
  mimeType : String
deriving DecidableEq, Repr

/-- One HAR entry as emitted by `constructPayload`.  The HAR `cache` field is
always the empty object `{}` in the source and is omitted here. -/
structure Entry where
  pageref : String
  startedDateTime : String
  time : Int
  request : RequestRecord
  response : ResponseRecord
  timings : Timings
deriving DecidableEq, Repr

/-- The HAR `log` envelope. -/
structure HarLog where
  version : String
  creator : Creator
  entries : List Entry
deriving DecidableEq, Repr

/-- The `request` wrapper of the outgoing body (`{ log: ... }`). -/
structure RequestWrapper where
  log : HarLog
deriving DecidableEq, Repr

/-- The complete outgoing payload (`OutgoingLogBody`). -/
structure OutgoingLogBody where
  logEntryId : String
  group : Group
  clientIPAddress : Option String
  development : Bool
  request : RequestWrapper
deriving DecidableEq, Repr

/-- The lowercase hexadecimal digit for a nibble, as the `uuid` package and
`Date.toISOString` emit them (`Nat.digitChar` yields `0`–`9`, `a`–`f`). -/
def hexChar (n : Fin 16) : Char :=
  Nat.digitChar n.val

/-- The `i`-th random nibble of a randomness supply (missing entries read as
zero, so the generator is total). -/
def nib (r : List (Fin 16)) (i : Nat) : Fin 16 :=
  r.getD i 0

/-- Models the `uuid` package's `v4` generator (RFC 4122 version 4): 30 free
random hex digits plus a 2-bit variant selector, laid out `8-4-4-4-12` with
the version nibble fixed to `4` and the variant nibble in `8`–`b`. -/
def uuidv4 (r : List (Fin 16)) : String :=
  String.mk
    ([hexChar (nib r 0), hexChar (nib r 1), hexChar (nib r 2), hexChar (nib r 3),
      hexChar (nib r 4), hexChar (nib r 5), hexChar (nib r 6), hexChar (nib r 7)] ++
     '-' ::
     [hexChar (nib r 8), hexChar (nib r 9), hexChar (nib r 10), hexChar (nib r 11)] ++
     '-' :: '4' ::
     [hexChar (nib r 12), hexChar (nib r 13), hexChar (nib r 14)] ++
     '-' :: hexChar ⟨8 + (nib r 30).val % 4, by omega⟩ ::
     [hexChar (nib r 15), hexChar (nib r 16), hexChar (nib r 17)] ++
     '-' ::
     [hexChar (nib r 18), hexChar (nib r 19), hexChar (nib r 20), hexChar (nib r 21),
      hexChar (nib r 22), hexChar (nib r 23), hexChar (nib r 24), hexChar (nib r 25),
      hexChar (nib r 26), hexChar (nib r 27), hexChar (nib r 28), hexChar (nib r 29)])

/-- A lowercase hexadecimal digit. -/
def isHexLower (c : Char) : Bool :=
  c.isDigit || ('a' ≤ c && c ≤ 'f')

/-- Checker for the version-4 UUID string format: `8-4-4-4-12` lowercase hex
digits, version nibble `4`, variant nibble one of `8`, `9`, `a`, `b`. -/
def isUUIDv4 (s : String) : Bool :=
  match s.data with
  | a1 :: a2 :: a3 :: a4 :: a5 :: a6 :: a7 :: a8 :: d1 ::
    b1 :: b2 :: b3 :: b4 :: d2 ::
    v :: c1 :: c2 :: c3 :: d3 ::
    w :: e1 :: e2 :: e3 :: d4 ::
    f1 :: f2 :: f3 :: f4 :: f5 :: f6 :: f7 :: f8 :: f9 :: f10 :: f11 :: f12 :: [] =>
    [a1, a2, a3, a4, a5, a6, a7, a8, b1, b2, b3, b4, c1, c2, c3,
     e1, e2, e3, f1, f2, f3, f4, f5, f6, f7, f8, f9, f10, f11, f12].all isHexLower
    && d1 = '-' && d2 = '-' && d3 = '-' && d4 = '-'
    && v = '4' && (w = '8' || w = '9' || w = 'a' || w = 'b')
  | _ => false

/-- Two-digit zero-padded decimal rendering of a component already known to
be below 100 (month, day, hour, minute, second fields of an ISO string). -/
def pad2 (n : Nat) : List Char :=
  [Nat.digitChar (n / 10 % 10), Nat.digitChar (n % 10)]

/-- Three-digit zero-padded decimal rendering (millisecond field). -/
def pad3 (n : Nat) : List Char :=
  [Nat.digitChar (n / 100 % 10), Nat.digitChar (n / 10 % 10), Nat.digitChar (n % 10)]

/-- Four-digit zero-padded decimal rendering (year field). -/
def pad4 (n : Nat) : List Char :=
  [Nat.digitChar (n / 1000 % 10), Nat.digitChar (n / 100 % 10),
   Nat.digitChar (n / 10 % 10), Nat.digitChar (n % 10)]

/-- Proleptic Gregorian civil date `(year, month, day)` of a day count since
1970-01-01 (Howard Hinnant's `civil_from_days` algorithm, restricted to
non-negative day counts). -/
def civilFromDays (z : Nat) : Nat × Nat × Nat :=
  let z' := z + 719468
  let era := z' / 146097
  let doe := z' % 146097
  let yoe := (doe - doe / 1460 + doe / 36524 - doe / 146096) / 365
  let y := yoe + era * 400
  let doy := doe - (365 * yoe + yoe / 4 - yoe / 100)
  let mp := (5 * doy + 2) / 153
  let d := doy - (153 * mp + 2) / 5 + 1
  let m := if mp < 10 then mp + 3 else mp - 9
  (if m ≤ 2 then y + 1 else y, m, d)

/-- Models JavaScript's `Date.prototype.toISOString` on epoch milliseconds
for dates from 1970 whose year has at most four digits (beyond year 9999 the
real platform switches to the expanded-year format; the year field is then
emitted modulo 10000 here): `YYYY-MM-DDTHH:MM:SS.mmmZ`, millisecond
precision, trailing UTC designator. -/
def toISOString (ms : Nat) : String :=
  let days := ms / 86400000
  let c := civilFromDays days
  String.mk
    (pad4 c.1 ++ '-' :: pad2 c.2.1 ++ '-' :: pad2 c.2.2 ++
     'T' :: pad2 (ms / 3600000 % 24) ++ ':' :: pad2 (ms / 60000 % 60) ++
     ':' :: pad2 (ms / 1000 % 60) ++ '.' :: pad3 (ms % 1000) ++ ['Z'])

/-- Checker for the emitted timestamp format: `YYYY-MM-DDTHH:MM:SS.mmmZ`
(24 characters, digits in every numeric position, millisecond precision,
trailing `Z`). -/
def isISO8601MillisZ (s : String) : Bool :=
  match s.data with
  | [y1, y2, y3, y4, s1, m1, m2, s2, d1, d2, t,
     h1, h2, c1, n1, n2, c2, x1, x2, p, r1, r2, r3, z] =>
    [y1, y2, y3, y4, m1, m2, d1, d2, h1, h2, n1, n2, x1, x2, r1, r2, r3].all Char.isDigit
    && s1 = '-' && s2 = '-' && t = 'T' && c1 = ':' && c2 = ':' && p = '.' && z = 'Z'
  | _ => false

/-- `getProto` from `construct-payload.ts`: `https` if the request socket is
TLS-encrypted, else `http`. -/
def getProto (req : IncomingMessage) : String :=
  if req.encrypted then "https" else "http"

/-- Models the WHATWG `new URL(req.url, base).toString()` call of
`construct-payload.ts` for the path-absolute `req.url` values a Node server
supplies, with `base` the string `proto ++ "://" ++ host`: the absolute URL
is the scheme, the host, and the request's path and query. -/
def urlToString (url : String) (proto : String) (host : String) : String :=
  proto ++ "://" ++ host ++ url

/-- The canonical redaction configuration: a deny-list and an allow-list of
field names. -/
structure RedactionConfig where
  denyList : List String := []
  allowList : List String := []
deriving DecidableEq, Repr

/-- Modelled from the spec: the configuration-normalization step (not under
the provided sources) that merges the deprecated `blacklist`/`whitelist`
aliases of `LogOptions` into the canonical deny/allow lists before they reach
the core; an absent options bag yields empty lists. -/
def redactionConfig (logOptions : Option LogOptions) : RedactionConfig :=
  match logOptions with
  | none => {}
  | some o =>
      { denyList := (o.denylist.getD (o.blacklist.getD []))
        allowList := (o.allowlist.getD (o.whitelist.getD [])) }

/-- The fixed redaction sentinel substituted for a filtered-out value. -/
def REDACTED : String := "[REDACTED]"

/-- Modelled from the spec: the Field Filter (`process-request.ts` /
`process-response.ts` are not under the provided sources).  For every field
name: if the allow-list is non-empty, keep iff the name is in the allow-list;
otherwise redact iff the name is in the deny-list, else keep.  Values are
replaced by the redaction sentinel; names, order and count are preserved. -/
def filterFields (cfg : RedactionConfig) (fields : List Pair) : List Pair :=
  fields.map fun f =>
    if cfg.allowList ≠ [] then
      if f.name ∈ cfg.allowList then f else { f with value := REDACTED }
    else if f.name ∈ cfg.denyList then { f with value := REDACTED }
    else f

/-- The filter a non-empty allow-list is specified to implement: keep exactly
the allow-listed names, redact everything else (no deny-list anywhere). -/
def allowOnly (allowList : List String) (fields : List Pair) : List Pair :=
  fields.map fun f =>
    if f.name ∈ allowList then f else { f with value := REDACTED }

/-- Whether a declared content type is in the JSON family:
`application/json` or any type ending in `+json` (vendored JSON). -/
def isJsonType (mt : String) : Bool :=
  mt == "application/json" || mt.endsWith "+json"

/-- Modelled from the spec: the urlencoded decoder of the Body Classifier
(split on `&` and `=`; percent-decoding of the values is left to the
platform and not modelled, no claim depends on it). -/
def decodeUrlForm (body : String) : List Param :=
  (body.splitOn "&").map fun kv =>
    match kv.splitOn "=" with
    | [k, v] => { name := k, value := v }
    | _ => { name := kv, value := "" }

/-- Modelled from the spec: the Body Classifier & Encoder
(`process-request.ts` is not under the provided sources).  Dispatch on the
declared content type: an empty body yields no record at all; JSON-family
types are parsed with the platform's `JSON.parse` and yield the text form
echoing the original bytes — on parse failure they fall back to the text
form with the original MIME type rather than raising; urlencoded bodies
decompose into params form; an absent or unrecognized content type yields
the text form with a generic text type.  (The multipart branch of §4.3 is
not modelled: no claim concerns it.)  The function is total: no input
raises an error. -/
def classifyBody (jsonValid : String → Bool) (contentType : Option String)
    (body : String) : Option BodyRecord :=
  if body = "" then none
  else
    match contentType with
    | some mt =>
        if isJsonType mt then
          if jsonValid body then
            some (.textForm mt body)
          else
            some (.textForm mt body)
        else if mt == "application/x-www-form-urlencoded" then
          some (.paramsForm mt (decodeUrlForm body))
        else
          some (.textForm mt body)
    | none => some (.textForm "text/plain" body)

/-- Modelled from the spec: the Request Serializer (`process-request.ts` is
not under the provided sources).  Composes the normalizer, filter and body
classifier into the HAR request record. -/
def processRequest (plat : Platform) (req : IncomingMessage)
    (requestBody : Option String) (logOptions : Option LogOptions) : RequestRecord :=
  let cfg := redactionConfig logOptions
  { method := req.method
    url := urlToString req.url (getProto req) req.host
    httpVersion := req.httpVersion
    headers := filterFields cfg req.headers
    queryString := filterFields cfg req.query
    postData := requestBody.bind (classifyBody plat.jsonValid req.contentType) }

/-- Modelled from the spec: the Response Serializer (`process-response.ts` is
not under the provided sources).  Status, status text, filtered headers,
classified body, plus the byte length of the textual content. -/
def processResponse (plat : Platform) (res : ServerResponse)
    (responseBody : Option String) (logOptions : Option LogOptions) : ResponseRecord :=
  let cfg := redactionConfig logOptions
  let content := responseBody.bind (classifyBody plat.jsonValid res.contentType)
  { status := res.statusCode
    statusText := res.statusMessage
    headers := filterFields cfg res.headers
    content := content
    size := (responseBody.getD "").utf8ByteSize
    mimeType := res.contentType.getD "text/plain" }

/-- `constructPayload` from `construct-payload.ts`, embedded statement by
statement.  `serverTime` is the signed difference of the two `getTime()`
values; `_id` is `payloadData.logId || uuidv4()` (JS string truthiness:
an absent or empty `logId` falls through to the generator); `development`
is `!!logOptions?.development`; `pageref` is the ternary on
`payloadData.routePath` with the WHATWG URL reconstruction in the falsy
branch.  The field `logEntryId` embeds the source's `_id`. -/
def constructPayload (plat : Platform) (req : IncomingMessage)
    (res : ServerResponse) (payloadData : PayloadData)
    (logOptions : Option LogOptions) : OutgoingLogBody :=
  let serverTime : Int :=
    (payloadData.responseEndDateTime : Int) - (payloadData.startedDateTime : Int)
  { logEntryId :=
      match payloadData.logId with
      | some s => if s = "" then uuidv4 plat.uuidBytes else s
      | none => uuidv4 plat.uuidBytes
    group :=
      { id := payloadData.apiKey
        label := payloadData.label
        email := payloadData.email }
    clientIPAddress := req.remoteAddress
    development :=
      match logOptions with
      | some o => o.development.getD false
      | none => false
    request :=
      { log :=
          { version := "1.2"
            creator :=
              { name := "readme-metrics (node)"
                version := plat.pkgVersion
                comment :=
                  plat.arch ++ "-" ++ plat.osPlatform ++ plat.osRelease ++ "/" ++
                    plat.nodeVersion }
            entries :=
              [{ pageref :=
                   match payloadData.routePath with
                   | some p =>
                       if p = "" then
                         urlToString req.url (getProto req) req.host
                       else p
                   | none => urlToString req.url (getProto req) req.host
                 startedDateTime := toISOString payloadData.startedDateTime
                 time := serverTime
                 request := processRequest plat req payloadData.requestBody logOptions
                 response := processResponse plat res payloadData.responseBody logOptions
                 timings :=
                   { wait := 0
                     receive := serverTime } }] } } }

/-- A concrete platform bundle for evaluating the payload on sample inputs:
explicit uuid randomness, a stand-in `JSON.parse` success predicate, and the
identity strings of the source comment's example machine. -/
def platW : Platform :=
  { uuidBytes := [1, 2, 3, 4, 5, 6, 7, 8, 9, 10, 11, 12, 13, 14, 15, 0,
                  1, 2, 3, 4, 5, 6, 7, 8, 9, 10, 11, 12, 13, 14, 2]
    jsonValid := fun s => s.startsWith "\x7b" && s.endsWith "\x7d"
    arch := "x64"
    osPlatform := "darwin"
    osRelease := "21.3.0"
    nodeVersion := "14.19.3"
    pkgVersion := "7.0.0" }

/-- A sample incoming request (the shape of the integration suite's GET). -/
def reqW : IncomingMessage :=
  { method := "GET"
    url := "/v1/users?val=1"
    httpVersion := "HTTP/1.1"
    host := "localhost:8000"
    headers := [{ name := "host", value := "localhost:8000" }]
    query := [{ name := "val", value := "1" }]
    encrypted := false
    remoteAddress := some "127.0.0.1" }

/-- A sample outgoing response. -/
def resW : ServerResponse :=
  { statusCode := 200
    statusMessage := "OK"
    headers := [{ name := "content-type", value := "application/json" }]
    contentType := some "application/json" }

/-- A sample payload-data record (the integration suite's group identity and
the source comment's example instant). -/
def pdW : PayloadData :=
  { apiKey := "owlbert-api-key"
    label := some "Owlbert"
    email := some "owlbert@example.com"
    startedDateTime := 1656584515394
    responseEndDateTime := 1656584515500 }

/-- Decimal digits render to digit characters. -/
theorem digitChar_isDigit (n : Nat) (h : n < 10) : (Nat.digitChar n).isDigit = true := by
  interval_cases n <;> decide

/-- Every string produced by the `Date.toISOString` model is in the
`YYYY-MM-DDTHH:MM:SS.mmmZ` format: millisecond precision, trailing `Z`. -/
theorem isISO8601MillisZ_toISOString (ms : Nat) :
    isISO8601MillisZ (toISOString ms) = true := by
  have h : ∀ n : Nat, (Nat.digitChar (n % 10)).isDigit = true := fun n =>
    digitChar_isDigit _ (Nat.mod_lt _ (by norm_num))
  simp [toISOString, isISO8601MillisZ, pad4, pad2, pad3, h]

/-- Nibbles render to lowercase hexadecimal characters. -/
theorem hexChar_isHexLower (n : Fin 16) : isHexLower (hexChar n) = true := by
  revert n; decide

/-- Every string produced by the `uuid.v4` model is in version-4 UUID
format. -/
theorem isUUIDv4_uuidv4 (r : List (Fin 16)) : isUUIDv4 (uuidv4 r) = true := by
  have hv : ∀ n : Fin 16, hexChar ⟨8 + n.val % 4, by omega⟩ = '8' ∨
      hexChar ⟨8 + n.val % 4, by omega⟩ = '9' ∨ hexChar ⟨8 + n.val % 4, by omega⟩ = 'a' ∨
      hexChar ⟨8 + n.val % 4, by omega⟩ = 'b' := by decide
  simp [uuidv4, isUUIDv4, hexChar_isHexLower]
  rcases hv (nib r 30) with h' | h' | h' | h' <;> simp [h']

/-- A generated UUID is never the empty string. -/
theorem uuidv4_ne_empty (r : List (Fin 16)) : uuidv4 r ≠ "" := by
  simp [uuidv4, String.ext_iff]

/-- Claim C1, counterexample: calling `constructPayload` with the empty
string as API key does not raise — it returns a payload whose `group.id` is
the empty string.  No `ConfigurationError` exists anywhere in
`construct-payload.ts`. -/
theorem C1_counterexample :
    (constructPayload platW reqW resW { pdW with apiKey := "" } none).group.id = "" :=
  rfl

/-- Claim C1, amended: `constructPayload` performs no API-key validation;
the supplied key — empty or not — is copied verbatim into `group.id` and
construction always succeeds (the function is total). -/
theorem C1_group_id_verbatim (plat : Platform) (req : IncomingMessage)
    (res : ServerResponse) (pd : PayloadData) (lo : Option LogOptions) :
    (constructPayload plat req res pd lo).group.id = pd.apiKey :=
  rfl

/-- Claim C2, counterexample: with inverted timestamps
(`startedDateTime = 1000`, `responseEndDateTime = 0`) the emitted entry's
`time` is `-1000`: the reported duration is negative, so no clamping
occurs. -/
theorem C2_counterexample :
    ((constructPayload platW reqW resW
        { pdW with startedDateTime := 1000, responseEndDateTime := 0 }
        none).request.log.entries.map (fun e => e.time)) = [-1000] ∧
      (-1000 : Int) < 0 := by
  constructor
  · decide
  · norm_num

/-- Claim C2, amended: the entry's `time` is exactly
`responseEndDateTime - startedDateTime` in milliseconds, with no clamping;
it is non-negative whenever the timestamps are in order, and negative when
the caller supplies inverted timestamps. -/
theorem C2_time_unclamped (plat : Platform) (req : IncomingMessage)
    (res : ServerResponse) (pd : PayloadData) (lo : Option LogOptions) :
    ((constructPayload plat req res pd lo).request.log.entries.map (fun e => e.time)) =
      [(pd.responseEndDateTime : Int) - (pd.startedDateTime : Int)] ∧
    (pd.startedDateTime ≤ pd.responseEndDateTime →
      (0 : Int) ≤ (pd.responseEndDateTime : Int) - (pd.startedDateTime : Int)) := by
  refine ⟨rfl, fun h => ?_⟩
  omega

/-- Claim C2, witness for the amended claim at the sample timestamps. -/
theorem C2_time_unclamped_witness :
    (0 : Int) ≤ (pdW.responseEndDateTime : Int) - (pdW.startedDateTime : Int) :=
  (C2_time_unclamped platW reqW resW pdW none).2 (by norm_num [pdW])

/-- Claim C3: with a non-empty allow-list the deny-list has no effect — the
filter coincides, for every deny-list, with the pure allow-list filter that
keeps a field's value iff its name is allow-listed (and this holds uniformly
for the header, query and body-field applications, which all call the same
`filterFields`). -/
theorem C3_allowlist_wins (deny allow : List String) (fields : List Pair)
    (h : allow ≠ []) :
    filterFields { denyList := deny, allowList := allow } fields =
      allowOnly allow fields := by
  simp [filterFields, allowOnly, h]

/-- Claim C3, witness: a deny-listed name has no effect when an allow-list
is present. -/
theorem C3_allowlist_wins_witness :
    filterFields { denyList := ["a", "b"], allowList := ["a"] }
        [{ name := "a", value := "1" }, { name := "b", value := "2" }] =
      allowOnly ["a"] [{ name := "a", value := "1" }, { name := "b", value := "2" }] :=
  C3_allowlist_wins ["a", "b"] ["a"] _ (by decide)

/-- Claim C4: a supplied (non-empty — JS truthiness treats the empty string
as absent) `routePath` is used verbatim as the entry's `pageref`; with no
`routePath` the `pageref` is the absolute URL rebuilt from the scheme
(`https` iff the socket is TLS-encrypted), the Host header, and the
request's path and query. -/
theorem C4_pageref (plat : Platform) (req : IncomingMessage)
    (res : ServerResponse) (pd : PayloadData) (lo : Option LogOptions) :
    (∀ p, pd.routePath = some p → p ≠ "" →
      ((constructPayload plat req res pd lo).request.log.entries.map
        (fun e => e.pageref)) = [p]) ∧
    (pd.routePath = none →
      ((constructPayload plat req res pd lo).request.log.entries.map
        (fun e => e.pageref)) = [urlToString req.url (getProto req) req.host] ∧
      (getProto req = "https" ↔ req.encrypted = true)) := by
  constructor
  · intro p hp hne
    simp [constructPayload, hp, hne]
  · intro hp
    refine ⟨by simp [constructPayload, hp], ?_⟩
    cases hreq : req.encrypted <;> simp [getProto, hreq]

/-- Claim C4, witness: verbatim route path on one input, reconstructed URL
on another. -/
theorem C4_pageref_witness :
    ((constructPayload platW reqW resW { pdW with routePath := some "/users/{id}" }
        none).request.log.entries.map (fun e => e.pageref)) = ["/users/{id}"] ∧
    ((constructPayload platW reqW resW pdW none).request.log.entries.map
        (fun e => e.pageref)) = [urlToString reqW.url (getProto reqW) reqW.host] :=
  ⟨(C4_pageref platW reqW resW _ none).1 "/users/{id}" rfl (by decide),
   ((C4_pageref platW reqW resW pdW none).2 rfl).1⟩

/-- Claim C5: a supplied (non-empty — JS truthiness treats the empty string
as absent, see C8) `logId` becomes the payload's `_id` verbatim; with no
`logId` the `_id` is the freshly generated `uuid.v4` value, which is in
version-4 UUID format. -/
theorem C5_log_id (plat : Platform) (req : IncomingMessage)
    (res : ServerResponse) (pd : PayloadData) (lo : Option LogOptions) :
    (∀ s, pd.logId = some s → s ≠ "" →
      (constructPayload plat req res pd lo).logEntryId = s) ∧
    (pd.logId = none →
      (constructPayload plat req res pd lo).logEntryId = uuidv4 plat.uuidBytes ∧
      isUUIDv4 (constructPayload plat req res pd lo).logEntryId = true) := by
  constructor
  · intro s hs hne
    simp [constructPayload, hs, hne]
  · intro hs
    refine ⟨by simp [constructPayload, hs], ?_⟩
    simp [constructPayload, hs, isUUIDv4_uuidv4]

/-- Claim C5, witness: caller-supplied identifier used verbatim; generated
identifier is a version-4 UUID. -/
theorem C5_log_id_witness :
    (constructPayload platW reqW resW { pdW with logId := some "abc123" }
        none).logEntryId = "abc123" ∧
    isUUIDv4 (constructPayload platW reqW resW pdW none).logEntryId = true :=
  ⟨(C5_log_id platW reqW resW _ none).1 "abc123" rfl (by decide),
   ((C5_log_id platW reqW resW pdW none).2 rfl).2⟩

/-- Claim C6: a non-empty body declared with a JSON-family content type
whose bytes fail `JSON.parse` classifies to the text-form body record that
preserves the original bytes and the original MIME type; the classifier is
total, so no error reaches the caller. -/
theorem C6_malformed_json_degrades (jsonValid : String → Bool) (mt body : String)
    (hjson : isJsonType mt = true) (hfail : jsonValid body = false)
    (hne : body ≠ "") :
    classifyBody jsonValid (some mt) body = some (.textForm mt body) := by
  simp [classifyBody, hne, hjson, hfail]

/-- Claim C6, witness: an invalid `application/json` body degrades to text
form with its original bytes. -/
theorem C6_malformed_json_degrades_witness :
    classifyBody (fun _ => false) (some "application/json") "not valid json" =
      some (.textForm "application/json" "not valid json") :=
  C6_malformed_json_degrades _ _ _ (by decide) rfl (by decide)

/-- Claim C7: the entry's `startedDateTime` is `toISOString` of the start
instant, and every such string is ISO-8601 with millisecond precision and a
trailing `Z`. -/
theorem C7_timestamp_format (plat : Platform) (req : IncomingMessage)
    (res : ServerResponse) (pd : PayloadData) (lo : Option LogOptions) :
    ((constructPayload plat req res pd lo).request.log.entries.map
      (fun e => e.startedDateTime)) = [toISOString pd.startedDateTime] ∧
    ((constructPayload plat req res pd lo).request.log.entries.map
      (fun e => isISO8601MillisZ e.startedDateTime)) = [true] := by
  refine ⟨rfl, ?_⟩
  simp [constructPayload, isISO8601MillisZ_toISOString]

/-- Claim C8: an empty-string `logId` is falsy in `logId || uuidv4()`, so
the emitted `_id` is the freshly generated UUID, never the empty string. -/
theorem C8_empty_logId (plat : Platform) (req : IncomingMessage)
    (res : ServerResponse) (pd : PayloadData) (lo : Option LogOptions)
    (h : pd.logId = some "") :
    (constructPayload plat req res pd lo).logEntryId = uuidv4 plat.uuidBytes ∧
    (constructPayload plat req res pd lo).logEntryId ≠ "" := by
  constructor
  · simp [constructPayload, h]
  · simp [constructPayload, h, uuidv4_ne_empty]

/-- Claim C8, witness at a concrete empty-string `logId`. -/
theorem C8_empty_logId_witness :
    (constructPayload platW reqW resW { pdW with logId := some "" }
        none).logEntryId = uuidv4 platW.uuidBytes ∧
    (constructPayload platW reqW resW { pdW with logId := some "" }
        none).logEntryId ≠ "" :=
  C8_empty_logId platW reqW resW _ none rfl

/-- Claim C9: the emitted `development` flag (a `Bool`, by the typing of the
embedding, mirroring the `!!` coercion) is `true` exactly when the options
bag is present with `development` set to `true`, and is `false` — not absent
— when the options bag or the `development` option is missing. -/
theorem C9_development_flag (plat : Platform) (req : IncomingMessage)
    (res : ServerResponse) (pd : PayloadData) (lo : Option LogOptions) :
    ((constructPayload plat req res pd lo).development = true ↔
      ∃ o, lo = some o ∧ o.development = some true) ∧
    (lo = none → (constructPayload plat req res pd lo).development = false) ∧
    (∀ o, lo = some o → o.development = none →
      (constructPayload plat req res pd lo).development = false) := by
  refine ⟨?_, fun h => by simp [constructPayload, h], fun o ho hd => by
    simp [constructPayload, ho, hd]⟩
  cases lo with
  | none => simp [constructPayload]
  | some o =>
    cases h : o.development with
    | none => simp [constructPayload, h]
    | some b => cases b <;> simp [constructPayload, h]

/-- Claim C9, witness: absent options bag and absent development option both
yield `false`. -/
theorem C9_development_flag_witness :
    (constructPayload platW reqW resW pdW none).development = false ∧
    (constructPayload platW reqW resW pdW (some {})).development = false :=
  ⟨(C9_development_flag platW reqW resW pdW none).2.1 rfl,
   (C9_development_flag platW reqW resW pdW (some {})).2.2 _ rfl rfl⟩

/-- Claim C10: the envelope invariant — HAR version `1.2`, exactly one
entry, `timings.wait = 0`, and `timings.receive` equal to the entry's
`time`. -/
theorem C10_envelope (plat : Platform) (req : IncomingMessage)
    (res : ServerResponse) (pd : PayloadData) (lo : Option LogOptions) :
    (constructPayload plat req res pd lo).request.log.version = "1.2" ∧
    (constructPayload plat req res pd lo).request.log.entries.length = 1 ∧
    ((constructPayload plat req res pd lo).request.log.entries.map
      (fun e => e.timings.wait)) = [0] ∧
    ((constructPayload plat req res pd lo).request.log.entries.map
      (fun e => e.timings.receive)) =
      ((constructPayload plat req res pd lo).request.log.entries.map
        (fun e => e.time)) :=
  ⟨rfl, rfl, rfl, rfl⟩

end Metrics
